import Mathlib

/-!
Shallow embedding of the aws-ecs-service-discovery toolkit.

The development models the three modules of the repository:

* `Register`  — `register.py`: one-shot DNS registration of a service
  (`find`, `register`, `register_cname`, `get_zone`, `update_service`);
* `Services`  — `services.py`: fleet discovery over all task-definition
  families (`get_service_info`, `get_info`, `get_zone_for_vpc`,
  `update_services`);
* `Discover`  — `discover.py`: the etcd watch loop that renders a template
  and runs a command on change notifications (`generate_template`, `main`).

External collaborators (the AWS APIs, the etcd client, the template engine)
are modelled as explicit parameters: record listings, zone listings,
resolver environments, and event sequences.  Effects on Route53 and on the
local file system are modelled as explicit action values so that theorems
can count and compare the writes a code path performs.
-/

/-- Splits a character list on a separator character with Python
`str.split(sep)` semantics: the result has exactly one more piece than the
number of separator occurrences, so leading, trailing and adjacent
separators produce empty pieces. -/
def splitChar (sep : Char) : List Char → List (List Char)
  | [] => [[]]
  | c :: rest =>
    if c = sep then [] :: splitChar sep rest
    else
      match splitChar sep rest with
      | [] => [[c]]
      | piece :: pieces => (c :: piece) :: pieces

/-- Python `s.split(sep)` for a one-character separator. -/
def pySplit (s : String) (sep : Char) : List String :=
  (splitChar sep s.data).map String.mk

/-- Python `s.endswith('.')`. -/
def endsWithDot (s : String) : Bool :=
  s.data.getLast? == some '.'

/-- Python `set(a) == set(b)` on lists of strings: equality of the
underlying sets of elements. -/
def pySetEq (a b : List String) : Bool :=
  a.all (fun x => b.contains x) && b.all (fun x => a.contains x)

namespace Register

/-- EC2 instance as seen by `find` (register.py lines 61-67): only the two
address attributes are consulted. -/
structure Ec2Inst where
  private_ip_address : Option String
  public_ip_address : Option String
deriving DecidableEq

/-- Address selection of `find` (register.py lines 64-67):
`if private and inst.private_ip_address is not None: append(private_ip)`
`elif inst.public_ip_address is not None: append(public_ip)`. -/
def selectAddress (priv : Bool) (inst : Ec2Inst) : Option String :=
  if priv && inst.private_ip_address.isSome then inst.private_ip_address
  else if inst.public_ip_address.isSome then inst.public_ip_address
  else none

/-- Accumulation of `ipaddresses` over the resolved container instances
(register.py lines 62-67). -/
def find_addresses (priv : Bool) (insts : List Ec2Inst) : List String :=
  insts.filterMap (selectAddress priv)

/-- Hosted zone entry as consulted by `get_zone`: `zone['Name']` and
`zone['Config']['PrivateZone']`. -/
structure ZoneRec where
  id : String
  name : String
  privateZone : Bool
deriving DecidableEq

/-- Resource record set as consulted by `register` / `register_cname`:
`recordset['Name']` and the values of `recordset['ResourceRecords']`. -/
structure RecordSet where
  name : String
  values : List String
deriving DecidableEq

/-- Argument of a `change_resource_record_sets` UPSERT call
(register.py lines 122-139 and 180-198). -/
structure UpsertAction where
  zoneId : String
  name : String
  recordType : String
  values : List String
  ttl : Nat
deriving DecidableEq

/-- Dot-termination of the dns entry (register.py lines 92-93):
`if not dns_entry.endswith('.'): dns_entry += '.'`. -/
def terminate (dns_entry : String) : String :=
  if endsWithDot dns_entry then dns_entry else dns_entry ++ "."

/-- Zone-name derivation (register.py line 95):
`zone_name = '.'.join(dns_entry.split('.')[1:])`. -/
def zone_name_of (dns_entry : String) : String :=
  String.intercalate "." (pySplit dns_entry '.').tail

/-- `get_zone` (register.py lines 204-214): first zone whose name equals
`zone_name` and whose `PrivateZone` flag equals `private`. -/
def get_zone (zones : List ZoneRec) (zone_name : String) (priv : Bool) : Option ZoneRec :=
  zones.find? (fun z => z.name == zone_name && z.privateZone == priv)

/-- Collection of `existing` (register.py lines 111-118): the values of the
first listed record set whose name equals the dns entry (the loop breaks
after the first name match), or the empty list when no name matches. -/
def existing_values (rrs : List RecordSet) (dns_entry : String) : List String :=
  match rrs.find? (fun r => r.name == dns_entry) with
  | some r => r.values
  | none => []

/-- Diff-and-upsert step of `register` (register.py lines 120-139): when
`set(existing) != set(new)` an UPSERT carrying exactly the resolved
addresses is issued, otherwise nothing is written. -/
def register_diff (zone : ZoneRec) (rrs : List RecordSet) (new : List String)
    (dns_entry : String) : Option UpsertAction :=
  if pySetEq (existing_values rrs dns_entry) new then none
  else some { zoneId := zone.id, name := dns_entry, recordType := "A",
              values := new, ttl := 20 }

/-- `register` (register.py lines 77-142).  The hosted-zone listing, the
record-set listing for the found zone, and the output of `find` are passed
in as the modelled collaborator responses.  The result is the optional
UPSERT issued, or the `AttributeError` raised when no zone matches. -/
def register (zones : List ZoneRec) (rrs : List RecordSet) (new : List String)
    (dns_entry : String) (priv : Bool) : Except String (Option UpsertAction) :=
  match get_zone zones (zone_name_of (terminate dns_entry)) priv with
  | none => .error ("AttributeError: No hosted zone for " ++ terminate dns_entry ++
      ", searched: " ++ zone_name_of (terminate dns_entry))
  | some zone => .ok (register_diff zone rrs new (terminate dns_entry))

/-- `register_cname` (register.py lines 145-201).  Scans the record sets:
on the first record whose name equals the terminated entry, if any value
equals `target` the function returns the no-op result `none` without
writing; otherwise (including when no record matches) it issues an UPSERT
whose value set is exactly `[target]`. -/
def register_cname (zones : List ZoneRec) (rrs : List RecordSet)
    (dns_entry target : String) (priv : Bool) :
    Except String (Option UpsertAction) :=
  match get_zone zones (zone_name_of (terminate dns_entry)) priv with
  | none => .error ("AttributeError: No hosted zone for " ++ terminate dns_entry ++
      ", searched: " ++ zone_name_of (terminate dns_entry))
  | some zone =>
    match rrs.find? (fun r => r.name == terminate dns_entry) with
    | some r =>
      if r.values.contains target then .ok none
      else .ok (some { zoneId := zone.id, name := terminate dns_entry,
                       recordType := "CNAME", values := [target], ttl := 20 })
    | none => .ok (some { zoneId := zone.id, name := terminate dns_entry,
                          recordType := "CNAME", values := [target], ttl := 20 })

/-- Route53 semantics of a `change_resource_record_sets` UPSERT at a name:
the record set at that name is replaced by the given values, or created
when absent. -/
def route53Upsert (rrs : List RecordSet) (n : String) (v : List String) :
    List RecordSet :=
  if rrs.any (fun r => r.name == n) then
    rrs.map (fun r => if r.name == n then { r with values := v } else r)
  else rrs ++ [{ name := n, values := v }]

/-- Effect of an optional UPSERT on the external record state. -/
def applyAction (rrs : List RecordSet) : Option UpsertAction → List RecordSet
  | none => rrs
  | some a => route53Upsert rrs a.name a.values

/-- Extracts the action performed by a `register` run (`none` both for a
converged no-op and for the error path, neither of which writes). -/
def actionOf : Except String (Option UpsertAction) → Option UpsertAction
  | .ok a => a
  | .error _ => none

/-- `update_service` (register.py lines 217-234).  `ips` is the result of
`find`; on an empty result the function returns `None` before any
registration (`if not ips: return None`).  Otherwise `register` runs, and
when a cname is given (`if cname:` — `none` models both `None` and the
empty default) `register_cname` runs with `target = dns` as passed.  The
result is `none` for the early return, otherwise the list of UPSERTs
performed. -/
def update_service (zones : List ZoneRec) (rrs crrs : List RecordSet)
    (ips : List String) (dns : String) (cname : Option String) :
    Option (Except String (List UpsertAction)) :=
  if ips.isEmpty then none
  else some (
    match register zones rrs ips dns true with
    | .error e => .error e
    | .ok a =>
      match cname with
      | none => .ok a.toList
      | some c =>
        match register_cname zones crrs c dns true with
        | .error e => .error e
        | .ok b => .ok (a.toList ++ b.toList))

end Register

namespace Services

/-- Primary network interface of an EC2 instance as consulted by
`get_service_info` (services.py lines 144-145). -/
structure Iface where
  vpc_id : String
  private_ip_address : String
deriving DecidableEq

/-- Orchestrator responses consumed by the fleet build: the task ARNs per
family (`ecs.list_tasks`) and the per-task resolution chain
`get_task_container_instance_arn` → `get_container_instance_ec2_id` →
`get_ec2_interface` (services.py lines 78-97). -/
structure Env where
  taskArnsOf : String → List String
  containerInstanceOf : String → String
  ec2idOf : String → String
  ifaceOf : String → Iface

/-- Service record as constructed by `get_service_info` (services.py line
125): a dict with exactly the keys `vpc_id`, `name` and `service_ips`. -/
structure ServiceInfo where
  vpc_id : Option String
  name : String
  service_ips : List String
deriving DecidableEq

/-- `get_task_arns` (services.py lines 69-75): `None` when the listing is
empty. -/
def get_task_arns (env : Env) (family : String) : Option (List String) :=
  let arns := env.taskArnsOf family
  if arns.length == 0 then none else some arns

/-- Per-task body of the loop in `get_service_info` (services.py lines
139-145): resolves the interface and appends its private address,
overwriting `vpc_id` each time. -/
def service_step (env : Env) (info : ServiceInfo) (service_arn : String) :
    ServiceInfo :=
  let iface := env.ifaceOf (env.ec2idOf (env.containerInstanceOf service_arn))
  { info with vpc_id := some iface.vpc_id,
              service_ips := info.service_ips ++ [iface.private_ip_address] }

/-- `get_service_info` (services.py lines 124-147).  Python `family[-8:]`
is `takeRight 8` and `family[:-8]` is `dropRight 8` (both degrade the same
way on short strings).  A family failing the `-service` suffix check yields
`None`; a family with no running tasks yields the record with an empty
`service_ips` list. -/
def get_service_info (env : Env) (family : String) : Option ServiceInfo :=
  if family.takeRight 8 != "-service" then none
  else
    match get_task_arns env family with
    | none =>
      some { vpc_id := none, name := family.dropRight 8, service_ips := [] }
    | some arns =>
      some (arns.foldl (service_step env)
        { vpc_id := none, name := family.dropRight 8, service_ips := [] })

/-- Hosted zone with its VPC association as consulted by
`get_zone_for_vpc`; `vpcId = none` models a zone whose detail has no
`VPCs` entry (the `KeyError` branch that is passed over). -/
structure VpcZone where
  zone_id : String
  zone_name : String
  vpcId : Option String
deriving DecidableEq

/-- `get_zone_for_vpc` (services.py lines 100-121): first zone whose
`VPCId` string equals the given vpc id; a `None` vpc id never equals a
string, and a zone without VPC association is skipped; falls through to
`None` when nothing matches. -/
def get_zone_for_vpc (zones : List VpcZone) (vpc_id : Option String) :
    Option (String × String) :=
  (zones.find? (fun z =>
    match z.vpcId, vpc_id with
    | some a, some b => a == b
    | _, _ => false)).map (fun z => (z.zone_id, z.zone_name))

/-- Network keys added to `info['network']` by the first processed service
(services.py lines 159-161); present only after that update succeeds. -/
structure NetworkExtra where
  zone_id : String
  zone_name : String
  vpc_id : Option String
deriving DecidableEq

/-- Accumulated result of `get_info`: the services list plus the optional
network keys. -/
structure GetInfoResult where
  services : List ServiceInfo
  networkExtra : Option NetworkExtra
deriving DecidableEq

/-- Loop of `get_info` (services.py lines 154-162).  A `None` service info
is skipped.  While the network keys are absent, the first included service
triggers `info['network'].update(get_zone_for_vpc(...))`; when
`get_zone_for_vpc` returns `None`, `dict.update(None)` raises a
`TypeError`. -/
def get_info_go (zones : List VpcZone) (env : Env) :
    List String → GetInfoResult → Except String GetInfoResult
  | [], acc => .ok acc
  | family :: rest, acc =>
    match get_service_info env family with
    | none => get_info_go zones env rest acc
    | some si =>
      match acc.networkExtra with
      | some _ =>
        get_info_go zones env rest { acc with services := acc.services ++ [si] }
      | none =>
        match get_zone_for_vpc zones si.vpc_id with
        | none => .error "TypeError: NoneType object is not iterable"
        | some (zid, zname) =>
          get_info_go zones env rest
            { services := acc.services ++ [si],
              networkExtra := some { zone_id := zid, zone_name := zname,
                                     vpc_id := si.vpc_id } }

/-- `get_info` (services.py lines 150-163). -/
def get_info (zones : List VpcZone) (env : Env) (families : List String) :
    Except String GetInfoResult :=
  get_info_go zones env families { services := [], networkExtra := none }

/-- Python values stored in a service record. -/
inductive PyVal
  | noneVal : PyVal
  | str : String → PyVal
  | strList : List String → PyVal
deriving DecidableEq

/-- Dict lookup `service[k]` on a record constructed by `get_service_info`
(services.py line 125): only the keys `vpc_id`, `name` and `service_ips`
exist; any other key raises a `KeyError`. -/
def dictGet (si : ServiceInfo) (k : String) : Except String PyVal :=
  if k == "vpc_id" then
    .ok (match si.vpc_id with | some s => .str s | none => .noneVal)
  else if k == "name" then .ok (.str si.name)
  else if k == "service_ips" then .ok (.strList si.service_ips)
  else .error ("KeyError: " ++ k)

/-- String content of a Python value (the values compared against
`service_names` are strings). -/
def pyStr : PyVal → String
  | .str s => s
  | _ => ""

/-- Filter condition of `update_services` (services.py lines 186-189):
`service_names and service['family'] not in service_names and
service['name'] not in service_names`, with Python short-circuit
evaluation: a non-empty name list forces the `service['family']` lookup. -/
def filter_skips (service_names : List String) (si : ServiceInfo) :
    Except String Bool :=
  if service_names.isEmpty then .ok false
  else
    match dictGet si "family" with
    | .error e => .error e
    | .ok famv =>
      if service_names.contains (pyStr famv) then .ok false
      else
        match dictGet si "name" with
        | .error e => .error e
        | .ok namev => .ok (!(service_names.contains (pyStr namev)))

/-- DNS call issued by `update_services` for one service (services.py
lines 196-197). -/
structure DnsCall where
  zone_id : String
  zone_name : String
  service_name : String
  service_ips : List String
deriving DecidableEq

/-- Loop of `update_services` (services.py lines 185-197). -/
def update_services_go (zone_id zone_name : String)
    (service_names : List String) :
    List ServiceInfo → List DnsCall → Except String (List DnsCall)
  | [], acc => .ok acc
  | si :: rest, acc =>
    match filter_skips service_names si with
    | .error e => .error e
    | .ok true => update_services_go zone_id zone_name service_names rest acc
    | .ok false =>
      update_services_go zone_id zone_name service_names rest
        (acc ++ [{ zone_id := zone_id, zone_name := zone_name,
                   service_name := si.name, service_ips := si.service_ips }])

/-- `update_services` (services.py lines 178-197), given the discovered
services and the resolved network info. -/
def update_services (zone_id zone_name : String) (service_names : List String)
    (services : List ServiceInfo) : Except String (List DnsCall) :=
  update_services_go zone_id zone_name service_names services []

end Services

namespace Discover

/-- Rendering context passed to the template (discover.py lines 100-106 and
118-130): `tasks` carries the raw JSON value of the single key, `services`
carries one `(service, tasks)` pair per child node. -/
inductive TemplateCtx
  | tasks : String → TemplateCtx
  | services : List (String × String) → TemplateCtx
deriving DecidableEq

/-- Observable action of the daemon: etcd reads and waits, template
renders, and post-render command runs. -/
inductive Action
  | directGet : String → Action
  | directList : String → Action
  | waitKey : String → Action
  | render : String → String → TemplateCtx → Action
  | runCmd : List String → Action
deriving DecidableEq

/-- Child node of a recursive etcd listing. -/
structure ChildNode where
  key : String
  value : String
deriving DecidableEq

/-- Per-child context entry (discover.py lines 98 and 118):
`{'service': n.key.split('/')[-1], 'tasks': json.loads(n.value)}`, with
the JSON value kept as the raw payload string. -/
def serviceEntry (n : ChildNode) : String × String :=
  ((pySplit n.key '/').getLastD "", n.value)

/-- `generate_template` (discover.py lines 42-56): renders the template to
the destination and then runs the command, unconditionally. -/
def generate_template (template destination : String) (command : List String)
    (ctx : TemplateCtx) : List Action :=
  [.render template destination ctx, .runCmd command]

/-- Outcome of one blocking wait: a transient fault
(`EtcdWaitFaultException` or `IncompleteRead`) or a change carrying the
re-read payload. -/
inductive WaitOutcome (α : Type)
  | fault : WaitOutcome α
  | changed : α → WaitOutcome α
deriving DecidableEq

/-- Body of one iteration of the single-key loop (discover.py lines
122-130): a fault is swallowed (`except ...: pass` — no render, no
command), a change renders from the new value and runs the command. -/
def loop_iter_single (template destination : String) (command : List String) :
    WaitOutcome String → List Action
  | .fault => []
  | .changed value => generate_template template destination command (.tasks value)

/-- Body of one iteration of the recursive loop (discover.py lines
111-121): the wait and the re-listing sit in one `try`; a fault from
either is swallowed, a change renders from the fresh children listing. -/
def loop_iter_recursive (template destination : String) (command : List String) :
    WaitOutcome (List ChildNode) → List Action
  | .fault => []
  | .changed children =>
    generate_template template destination command
      (.services (children.map serviceEntry))

/-- Trace of the single-key `while True` loop over a finite prefix of wait
outcomes: every iteration re-issues the wait, then performs the iteration
body. -/
def watch_trace_single (key template destination : String)
    (command : List String) : List (WaitOutcome String) → List Action
  | [] => []
  | ev :: evs =>
    (Action.waitKey key :: loop_iter_single template destination command ev)
      ++ watch_trace_single key template destination command evs

/-- Trace of the recursive `while True` loop over a finite prefix of wait
outcomes. -/
def watch_trace_recursive (key template destination : String)
    (command : List String) : List (WaitOutcome (List ChildNode)) → List Action
  | [] => []
  | ev :: evs =>
    (Action.waitKey key :: loop_iter_recursive template destination command ev)
      ++ watch_trace_recursive key template destination command evs

/-- Key construction of `main` (discover.py line 93):
`key = '/tasks/{0}'.format(args.key[0])`. -/
def taskKey (k : String) : String := "/tasks/" ++ k

/-- Startup phase of `main` in single mode (discover.py lines 102-106): one
direct `get` of the key, then one render and one command from that
snapshot. -/
def startup_single (key template destination : String) (command : List String)
    (value : String) : List Action :=
  Action.directGet key ::
    generate_template template destination command (.tasks value)

/-- Startup phase of `main` in recursive mode (discover.py lines 96-101):
one direct children listing, then one render and one command from that
snapshot. -/
def startup_recursive (key template destination : String)
    (command : List String) (children : List ChildNode) : List Action :=
  Action.directList key ::
    generate_template template destination command
      (.services (children.map serviceEntry))

/-- `main` in single mode (discover.py lines 93-130): startup followed by
the watch loop. -/
def main_single (k template destination : String) (command : List String)
    (value : String) (evs : List (WaitOutcome String)) : List Action :=
  startup_single (taskKey k) template destination command value
    ++ watch_trace_single (taskKey k) template destination command evs

/-- `main` in recursive mode (discover.py lines 93-121): startup followed
by the watch loop. -/
def main_recursive (k template destination : String) (command : List String)
    (children : List ChildNode) (evs : List (WaitOutcome (List ChildNode))) :
    List Action :=
  startup_recursive (taskKey k) template destination command children
    ++ watch_trace_recursive (taskKey k) template destination command evs

/-- Direct (non-blocking) etcd reads. -/
def isDirectRead : Action → Bool
  | .directGet _ => true
  | .directList _ => true
  | _ => false

/-- Blocking waits. -/
def isWait : Action → Bool
  | .waitKey _ => true
  | _ => false

/-- Template renders. -/
def isRender : Action → Bool
  | .render _ _ _ => true
  | _ => false

/-- Post-render command runs. -/
def isRun : Action → Bool
  | .runCmd _ => true
  | _ => false

end Discover

/-! Concrete fixtures used by witnesses and counterexamples. -/

namespace Register

/-- Hosted-zone listing with one private zone `local.`. -/
def zones0 : List ZoneRec := [{ id := "Z1", name := "local.", privateZone := true }]

/-- The zone of `zones0`. -/
def z0 : ZoneRec := { id := "Z1", name := "local.", privateZone := true }

/-- Record listing whose A record at `cache.local.` holds `10.0.0.2`. -/
def rrs0 : List RecordSet := [{ name := "cache.local.", values := ["10.0.0.2"] }]

/-- Record listing whose A record at `cache.local.` holds `10.0.0.1`. -/
def rrs1 : List RecordSet := [{ name := "cache.local.", values := ["10.0.0.1"] }]

/-- CNAME record listing: `alias.local.` already points at `target.local.`. -/
def crrs0 : List RecordSet := [{ name := "alias.local.", values := ["target.local."] }]

/-- Container instance with no private address and a public address. -/
def instPub : Ec2Inst :=
  { private_ip_address := none, public_ip_address := some "203.0.113.5" }

/-- Container instance carrying both addresses. -/
def instBoth : Ec2Inst :=
  { private_ip_address := some "10.0.0.1", public_ip_address := some "203.0.113.5" }

end Register

namespace Services

/-- Resolver environment in which no family has running tasks. -/
def env0 : Env :=
  { taskArnsOf := fun _ => [], containerInstanceOf := id, ec2idOf := id,
    ifaceOf := fun _ => { vpc_id := "vpc-1", private_ip_address := "10.0.0.9" } }

/-- Hosted zone associated with the VPC `vpc-1`. -/
def zones9 : List VpcZone :=
  [{ zone_id := "Z1", zone_name := "local.", vpcId := some "vpc-1" }]

/-- A discovered service record, as `get_service_info` builds them. -/
def si0 : ServiceInfo :=
  { vpc_id := some "vpc-1", name := "cache", service_ips := ["10.0.0.9"] }

end Services

/-! Helper lemmas. -/

theorem contains_iff_mem (l : List String) (x : String) : l.contains x = true ↔ x ∈ l :=
  List.elem_iff

/-- Python set equality on string lists coincides with equality of the
element sets. -/
theorem pySetEq_iff (a b : List String) :
    pySetEq a b = true ↔ a.toFinset = b.toFinset := by
  unfold pySetEq
  rw [Bool.and_eq_true, List.all_eq_true, List.all_eq_true]
  constructor
  · rintro ⟨h1, h2⟩
    ext x
    rw [List.mem_toFinset, List.mem_toFinset]
    constructor
    · intro hx; exact (contains_iff_mem b x).mp (h1 x hx)
    · intro hx; exact (contains_iff_mem a x).mp (h2 x hx)
  · intro h
    constructor
    · intro x hx
      refine (contains_iff_mem b x).mpr ?_
      rw [← List.mem_toFinset, ← h, List.mem_toFinset]
      exact hx
    · intro x hx
      refine (contains_iff_mem a x).mpr ?_
      rw [← List.mem_toFinset, h, List.mem_toFinset]
      exact hx

theorem pySetEq_self (a : List String) : pySetEq a a = true :=
  (pySetEq_iff a a).mpr rfl

namespace Register

theorem find_none_append (p : RecordSet → Bool) (x : RecordSet) :
    ∀ l : List RecordSet, l.find? p = none → (l ++ [x]).find? p = [x].find? p := by
  intro l
  induction l with
  | nil => intro _; rfl
  | cons a as ih =>
    intro h
    rw [List.find?_eq_none] at h
    have hpa : ¬ p a = true := h a (List.mem_cons_self a as)
    have has : as.find? p = none :=
      List.find?_eq_none.mpr fun y hy => h y (List.mem_cons_of_mem a hy)
    rw [List.cons_append, List.find?_cons_of_neg _ hpa]
    exact ih has

theorem replace_preserves_match (n : String) (v : List String) :
    ((fun r : RecordSet => r.name == n) ∘
        (fun r => if r.name == n then { r with values := v } else r)) =
      (fun r : RecordSet => r.name == n) := by
  funext r
  simp only [Function.comp_apply]
  by_cases h : (r.name == n) = true
  · rw [if_pos h]
  · rw [if_neg h]

/-- After a Route53 UPSERT at a name, the listed values at that name are
exactly the upserted values. -/
theorem existing_values_upsert (rrs : List RecordSet) (n : String) (v : List String) :
    existing_values (route53Upsert rrs n v) n = v := by
  unfold route53Upsert existing_values
  by_cases h : rrs.any (fun r => r.name == n) = true
  · rw [if_pos h, List.find?_map, replace_preserves_match]
    cases hf : rrs.find? (fun r => r.name == n) with
    | none =>
      obtain ⟨r, hr, hrn⟩ := List.any_eq_true.mp h
      exact absurd hrn (List.find?_eq_none.mp hf r hr)
    | some r0 =>
      have h0 := List.find?_some hf
      rw [Option.map_some', if_pos h0]
  · have hfn : rrs.find? (fun r => r.name == n) = none :=
      List.find?_eq_none.mpr fun r hr hrn => h (List.any_eq_true.mpr ⟨r, hr, hrn⟩)
    rw [if_neg h, find_none_append _ _ _ hfn]
    rw [List.find?_cons_of_pos _ (by exact beq_self_eq_true n)]

/-- C1: `register` issues a Route53 `change_resource_record_sets` UPSERT if
and only if the set of existing record values differs from the set of
resolved addresses; when the sets are equal it returns without upserting,
and re-running `register` against the external record state left by the
first run performs no upsert, so at most one upsert happens across the two
calls. -/
theorem register_upsert_iff_set_diff (zones : List ZoneRec) (rrs : List RecordSet)
    (new : List String) (dns_entry : String) (priv : Bool) (z : ZoneRec)
    (hz : get_zone zones (zone_name_of (terminate dns_entry)) priv = some z) :
    ((actionOf (register zones rrs new dns_entry priv)).isSome = true ↔
        (existing_values rrs (terminate dns_entry)).toFinset ≠ new.toFinset) ∧
    register zones
        (applyAction rrs (actionOf (register zones rrs new dns_entry priv)))
        new dns_entry priv = .ok none := by
  have hreg : register zones rrs new dns_entry priv =
      .ok (register_diff z rrs new (terminate dns_entry)) := by
    unfold register; rw [hz]
  by_cases h : pySetEq (existing_values rrs (terminate dns_entry)) new = true
  · have hdiff : register_diff z rrs new (terminate dns_entry) = none := by
      unfold register_diff; rw [if_pos h]
    rw [hreg, hdiff]
    constructor
    · constructor
      · intro hs; exact absurd hs (by simp [actionOf])
      · intro hne; exact absurd ((pySetEq_iff _ _).mp h) hne
    · show register zones rrs new dns_entry priv = .ok none
      rw [hreg, hdiff]
  · have hact : register_diff z rrs new (terminate dns_entry) =
        some { zoneId := z.id, name := terminate dns_entry, recordType := "A",
               values := new, ttl := 20 } := by
      unfold register_diff; rw [if_neg h]
    have hne : (existing_values rrs (terminate dns_entry)).toFinset ≠ new.toFinset :=
      fun he => h ((pySetEq_iff _ _).mpr he)
    rw [hreg, hact]
    constructor
    · exact ⟨fun _ => hne, fun _ => rfl⟩
    · show register zones (route53Upsert rrs (terminate dns_entry) new)
          new dns_entry priv = .ok none
      unfold register
      rw [hz]
      unfold register_diff
      rw [existing_values_upsert]
      simp [pySetEq_self]

theorem register_upsert_iff_set_diff_witness :
    get_zone zones0 (zone_name_of (terminate "cache.local")) true = some z0 ∧
    (((actionOf (register zones0 rrs0 ["10.0.0.1"] "cache.local" true)).isSome = true ↔
        (existing_values rrs0 (terminate "cache.local")).toFinset ≠
          (["10.0.0.1"] : List String).toFinset) ∧
      register zones0
          (applyAction rrs0 (actionOf (register zones0 rrs0 ["10.0.0.1"] "cache.local" true)))
          ["10.0.0.1"] "cache.local" true = .ok none) :=
  ⟨by decide,
   register_upsert_iff_set_diff zones0 rrs0 ["10.0.0.1"] "cache.local" true z0 (by decide)⟩

/-- C3 counterexample: with an empty resolved address list and a non-empty
existing A record at `cache.local.`, the registration flow
(`update_service`) returns `None` before any registration — no UPSERT with
an empty value set is issued, contrary to the claim. -/
theorem update_service_skips_empty_resolution :
    update_service zones0 rrs1 [] [] "cache.local" none = none ∧
    existing_values rrs1 (terminate "cache.local") = ["10.0.0.1"] :=
  ⟨rfl, rfl⟩

/-- C3 amended: `register` itself, handed an empty resolved address list
while the existing value set at the entry is non-empty, issues an UPSERT
whose value set is empty (clearing the record); the `update_service` flow,
however, returns `None` without calling `register` when resolution yields
an empty list. -/
theorem register_upserts_empty_value_set (zones : List ZoneRec)
    (rrs : List RecordSet) (dns_entry : String) (priv : Bool) (z : ZoneRec)
    (hz : get_zone zones (zone_name_of (terminate dns_entry)) priv = some z)
    (hne : existing_values rrs (terminate dns_entry) ≠ []) :
    (∃ a, register zones rrs [] dns_entry priv = .ok (some a) ∧ a.values = []) ∧
    (∀ ips : List String, ips.isEmpty = true →
        ∀ crrs cname, update_service zones rrs crrs ips dns_entry cname = none) := by
  constructor
  · have hps : pySetEq (existing_values rrs (terminate dns_entry)) [] = false := by
      cases hev : existing_values rrs (terminate dns_entry) with
      | nil => exact absurd hev hne
      | cons e es => rfl
    refine ⟨{ zoneId := z.id, name := terminate dns_entry, recordType := "A",
              values := [], ttl := 20 }, ?_, rfl⟩
    unfold register
    rw [hz]
    unfold register_diff
    rw [hps]
    rfl
  · intro ips hips crrs cname
    unfold update_service
    rw [hips]
    rfl

theorem register_upserts_empty_value_set_witness :
    (get_zone zones0 (zone_name_of (terminate "cache.local")) true = some z0 ∧
      existing_values rrs1 (terminate "cache.local") ≠ []) ∧
    ((∃ a, register zones0 rrs1 [] "cache.local" true = .ok (some a) ∧ a.values = []) ∧
      (∀ ips : List String, ips.isEmpty = true →
        ∀ crrs cname, update_service zones0 rrs1 crrs ips "cache.local" cname = none)) :=
  ⟨⟨by decide, by decide⟩,
   register_upserts_empty_value_set zones0 rrs1 "cache.local" true z0
     (by decide) (by decide)⟩

/-- C4: `register_cname` returns the no-op result (`None`, no upsert) if
and only if some value of the existing CNAME record at the dot-terminated
entry already equals the target; otherwise it upserts exactly the single
value set containing the target; and the no-op path leaves the external
record state — stale values included — untouched. -/
theorem register_cname_noop_iff_target_present (zones : List ZoneRec)
    (rrs : List RecordSet) (dns_entry target : String) (priv : Bool) (z : ZoneRec)
    (hz : get_zone zones (zone_name_of (terminate dns_entry)) priv = some z) :
    (register_cname zones rrs dns_entry target priv = .ok none ↔
        target ∈ existing_values rrs (terminate dns_entry)) ∧
    (∀ a, register_cname zones rrs dns_entry target priv = .ok (some a) →
        a.values = [target] ∧ a.name = terminate dns_entry) ∧
    (register_cname zones rrs dns_entry target priv = .ok none →
        applyAction rrs (actionOf (register_cname zones rrs dns_entry target priv)) = rrs) := by
  cases hf : rrs.find? (fun r => r.name == terminate dns_entry) with
  | none =>
    have hev : existing_values rrs (terminate dns_entry) = [] := by
      unfold existing_values; rw [hf]
    have hrc : register_cname zones rrs dns_entry target priv =
        .ok (some { zoneId := z.id, name := terminate dns_entry,
                    recordType := "CNAME", values := [target], ttl := 20 }) := by
      unfold register_cname; rw [hz, hf]
    refine ⟨?_, ?_, ?_⟩
    · rw [hrc, hev]
      constructor
      · intro habs
        exact Option.noConfusion (Except.ok.inj habs)
      · intro habs
        exact absurd habs (by simp)
    · intro a ha
      rw [hrc] at ha
      have h1 := Option.some.inj (Except.ok.inj ha)
      rw [← h1]
      exact ⟨rfl, rfl⟩
    · intro habs
      rw [hrc] at habs
      exact Option.noConfusion (Except.ok.inj habs)
  | some r =>
    have hev : existing_values rrs (terminate dns_entry) = r.values := by
      unfold existing_values; rw [hf]
    by_cases hc : r.values.contains target = true
    · have hrc : register_cname zones rrs dns_entry target priv = .ok none := by
        unfold register_cname
        rw [hz, hf]
        show (if r.values.contains target = true then
                (Except.ok none : Except String (Option UpsertAction))
              else .ok (some { zoneId := z.id, name := terminate dns_entry,
                               recordType := "CNAME", values := [target],
                               ttl := 20 })) = .ok none
        rw [if_pos hc]
      refine ⟨?_, ?_, ?_⟩
      · rw [hrc, hev]
        exact ⟨fun _ => (contains_iff_mem r.values target).mp hc, fun _ => rfl⟩
      · intro a ha
        rw [hrc] at ha
        exact Option.noConfusion (Except.ok.inj ha)
      · intro _
        rw [hrc]
        rfl
    · have hrc : register_cname zones rrs dns_entry target priv =
          .ok (some { zoneId := z.id, name := terminate dns_entry,
                      recordType := "CNAME", values := [target], ttl := 20 }) := by
        unfold register_cname
        rw [hz, hf]
        show (if r.values.contains target = true then
                (Except.ok none : Except String (Option UpsertAction))
              else .ok (some { zoneId := z.id, name := terminate dns_entry,
                               recordType := "CNAME", values := [target],
                               ttl := 20 })) =
          .ok (some { zoneId := z.id, name := terminate dns_entry,
                      recordType := "CNAME", values := [target], ttl := 20 })
        rw [if_neg hc]
      refine ⟨?_, ?_, ?_⟩
      · rw [hrc, hev]
        constructor
        · intro habs
          exact Option.noConfusion (Except.ok.inj habs)
        · intro hmem
          exact absurd ((contains_iff_mem r.values target).mpr hmem) hc
      · intro a ha
        rw [hrc] at ha
        have h1 := Option.some.inj (Except.ok.inj ha)
        rw [← h1]
        exact ⟨rfl, rfl⟩
      · intro habs
        rw [hrc] at habs
        exact Option.noConfusion (Except.ok.inj habs)

theorem register_cname_noop_iff_target_present_witness :
    get_zone zones0 (zone_name_of (terminate "alias.local")) true = some z0 ∧
    (register_cname zones0 crrs0 "alias.local" "target.local." true = .ok none ↔
        "target.local." ∈ existing_values crrs0 (terminate "alias.local")) :=
  ⟨by decide,
   (register_cname_noop_iff_target_present zones0 crrs0 "alias.local"
      "target.local." true z0 (by decide)).1⟩

/-- C5 counterexample: in private mode (`private=True`), an instance whose
private address is unavailable contributes its PUBLIC address — at the
concrete instance `instPub` the selected address is the public one — so
"a public IP address is selected ... never in private mode" is false. -/
theorem select_address_public_in_private_mode :
    ¬ (∀ inst : Ec2Inst, (selectAddress true inst).isSome = true →
        selectAddress true inst = inst.private_ip_address) := by
  intro hclaim
  exact absurd (hclaim instPub (by decide)) (by decide)

/-- C5 amended: the private address is selected when private mode is
requested and a private address exists; otherwise — in public-allowed mode
(even when a private address exists), or in private mode when the private
address is unavailable — the selection is exactly the public address (an
instance with no public address in that situation contributes nothing). -/
theorem select_address_amended (priv : Bool) (inst : Ec2Inst) :
    (priv = true → inst.private_ip_address.isSome = true →
        selectAddress priv inst = inst.private_ip_address) ∧
    (priv = false ∨ inst.private_ip_address = none →
        selectAddress priv inst = inst.public_ip_address) := by
  constructor
  · intro hp hs
    unfold selectAddress
    rw [hp, hs]
    rfl
  · intro h
    have hcond : (priv && inst.private_ip_address.isSome) = false := by
      rcases h with hp | hn
      · rw [hp]; rfl
      · rw [hn]; simp
    unfold selectAddress
    rw [hcond]
    cases hpub : inst.public_ip_address with
    | none => rfl
    | some ip => rfl

theorem select_address_amended_witness :
    (selectAddress true instBoth = instBoth.private_ip_address ∧
      selectAddress false instBoth = instBoth.public_ip_address) ∧
    selectAddress true instPub = instPub.public_ip_address :=
  ⟨⟨(select_address_amended true instBoth).1 rfl (by decide),
    (select_address_amended false instBoth).2 (Or.inl rfl)⟩,
   (select_address_amended true instPub).2 (Or.inr (by decide))⟩

/-- C7: the dns entry is dot-terminated if not already; the hosted zone is
searched by exact name equality against the dot-joined labels of the
terminated entry with its first label removed, filtered by the
private/public flag; and when no zone matches, both `register` and
`register_cname` raise an `AttributeError` immediately. -/
theorem zone_resolution_fatal (zones : List ZoneRec) (rrs : List RecordSet)
    (new : List String) (dns_entry target : String) (priv : Bool) :
    (terminate dns_entry =
        if endsWithDot dns_entry then dns_entry else dns_entry ++ ".") ∧
    (zone_name_of (terminate dns_entry) =
        String.intercalate "." (pySplit (terminate dns_entry) '.').tail) ∧
    (∀ z, get_zone zones (zone_name_of (terminate dns_entry)) priv = some z →
        z ∈ zones ∧ z.name = zone_name_of (terminate dns_entry) ∧
          z.privateZone = priv) ∧
    ((∀ z ∈ zones, ¬(z.name = zone_name_of (terminate dns_entry) ∧
          z.privateZone = priv)) →
        (∃ e, register zones rrs new dns_entry priv = .error e) ∧
        (∃ e, register_cname zones rrs dns_entry target priv = .error e)) := by
  refine ⟨rfl, rfl, ?_, ?_⟩
  · intro z hzf
    have hmem := List.mem_of_find?_eq_some hzf
    have hp := List.find?_some hzf
    rw [Bool.and_eq_true, beq_iff_eq, beq_iff_eq] at hp
    exact ⟨hmem, hp.1, hp.2⟩
  · intro h
    have hnone : get_zone zones (zone_name_of (terminate dns_entry)) priv = none := by
      refine List.find?_eq_none.mpr fun z hzm => ?_
      intro hp
      rw [Bool.and_eq_true, beq_iff_eq, beq_iff_eq] at hp
      exact h z hzm hp
    constructor
    · refine ⟨"AttributeError: No hosted zone for " ++ terminate dns_entry ++
          ", searched: " ++ zone_name_of (terminate dns_entry), ?_⟩
      unfold register
      rw [hnone]
    · refine ⟨"AttributeError: No hosted zone for " ++ terminate dns_entry ++
          ", searched: " ++ zone_name_of (terminate dns_entry), ?_⟩
      unfold register_cname
      rw [hnone]

theorem zone_resolution_fatal_witness :
    (∀ z ∈ zones0, ¬(z.name = zone_name_of (terminate "cache.local") ∧
        z.privateZone = false)) ∧
    ((∃ e, register zones0 rrs1 ["10.0.0.1"] "cache.local" false = .error e) ∧
      (∃ e, register_cname zones0 rrs1 "cache.local" "t.local." false = .error e)) :=
  ⟨by decide,
   (zone_resolution_fatal zones0 rrs1 ["10.0.0.1"] "cache.local" "t.local."
      false).2.2.2 (by decide)⟩

end Register

namespace Services

theorem foldl_service_step_name (env : Env) :
    ∀ (arns : List String) (info : ServiceInfo),
      (arns.foldl (service_step env) info).name = info.name := by
  intro arns
  induction arns with
  | nil => intro info; rfl
  | cons a as ih =>
    intro info
    rw [List.foldl_cons]
    exact ih _

/-- C6: a task-definition family whose name does not end with the
8-character suffix "-service" is excluded from the desired state entirely
(`get_service_info` returns `None`, and `get_info` skips it — no error); a
family that does end with "-service" appears with the service name equal to
the family name with that suffix stripped. -/
theorem service_suffix_filter (zones : List VpcZone) (env : Env) (family : String) :
    (family.takeRight 8 ≠ "-service" →
        get_service_info env family = none ∧
        ∀ rest acc, get_info_go zones env (family :: rest) acc =
          get_info_go zones env rest acc) ∧
    (family.takeRight 8 = "-service" →
        ∃ si, get_service_info env family = some si ∧
          si.name = family.dropRight 8) := by
  constructor
  · intro h
    have hb : (family.takeRight 8 != "-service") = true := by
      rw [bne_iff_ne]; exact h
    have hnone : get_service_info env family = none := by
      unfold get_service_info
      rw [hb]
      rfl
    refine ⟨hnone, ?_⟩
    intro rest acc
    simp only [get_info_go]
    rw [hnone]
  · intro h
    have hb : (family.takeRight 8 != "-service") = false := by
      rw [h]
      rfl
    cases ht : get_task_arns env family with
    | none =>
      have hsi : get_service_info env family =
          some { vpc_id := none, name := family.dropRight 8, service_ips := [] } := by
        unfold get_service_info
        rw [hb, ht]
        rfl
      exact ⟨_, hsi, by simp⟩
    | some arns =>
      have hsi : get_service_info env family =
          some (arns.foldl (service_step env)
            { vpc_id := none, name := family.dropRight 8, service_ips := [] }) := by
        unfold get_service_info
        rw [hb, ht]
        rfl
      refine ⟨_, hsi, ?_⟩
      rw [foldl_service_step_name env arns _]

theorem service_suffix_filter_witness :
    (("worker" : String).takeRight 8 ≠ "-service" ∧
      get_service_info env0 "worker" = none) ∧
    (("cache-service" : String).takeRight 8 = "-service" ∧
      (∃ si, get_service_info env0 "cache-service" = some si ∧
        si.name = ("cache-service" : String).dropRight 8) ∧
      ("cache-service" : String).dropRight 8 = "cache") :=
  ⟨⟨by decide, ((service_suffix_filter [] env0 "worker").1 (by decide)).1⟩,
   ⟨by decide, (service_suffix_filter [] env0 "cache-service").2 (by decide),
    by decide⟩⟩

/-- C9: a family ending in "-service" with zero running tasks does produce
a service record with an empty endpoint list, as the claim says — but when
such a service is the first one processed, the batch build does NOT
complete without error: `get_zone_for_vpc(None)` matches no zone, so
`info['network'].update(None)` raises a `TypeError`. -/
theorem get_info_error_on_idle_service_first :
    get_service_info env0 "cache-service" =
      some { vpc_id := none, name := "cache", service_ips := [] } ∧
    get_info zones9 env0 ["cache-service"] =
      .error "TypeError: NoneType object is not iterable" :=
  ⟨rfl, rfl⟩

/-- C10: the filter in `update_services` reads the key `family` from each
service record, but records built by `get_service_info` carry only the
keys `vpc_id`, `name` and `service_ips`; with a non-empty name filter and
at least one discovered service the lookup raises a `KeyError`, so a
name-filtered update never completes normally. -/
theorem update_services_family_keyerror (zone_id zone_name : String)
    (service_names : List String) (si : ServiceInfo) (rest : List ServiceInfo)
    (h : service_names ≠ []) :
    dictGet si "family" = .error "KeyError: family" ∧
    update_services zone_id zone_name service_names (si :: rest) =
      .error "KeyError: family" := by
  cases service_names with
  | nil => exact absurd rfl h
  | cons a l => exact ⟨rfl, rfl⟩

theorem update_services_family_keyerror_witness :
    (["cache"] : List String) ≠ [] ∧
    (dictGet si0 "family" = .error "KeyError: family" ∧
      update_services "Z1" "local." ["cache"] [si0] =
        .error "KeyError: family") :=
  ⟨by decide,
   update_services_family_keyerror "Z1" "local." ["cache"] si0 [] (by decide)⟩

end Services

namespace Discover

theorem watch_trace_single_append (key template destination : String)
    (command : List String) (e1 e2 : List (WaitOutcome String)) :
    watch_trace_single key template destination command (e1 ++ e2) =
      watch_trace_single key template destination command e1 ++
        watch_trace_single key template destination command e2 := by
  induction e1 with
  | nil => rfl
  | cons ev evs ih =>
    rw [List.cons_append]
    simp only [watch_trace_single]
    rw [ih, List.append_assoc]

theorem watch_trace_recursive_append (key template destination : String)
    (command : List String) (e1 e2 : List (WaitOutcome (List ChildNode))) :
    watch_trace_recursive key template destination command (e1 ++ e2) =
      watch_trace_recursive key template destination command e1 ++
        watch_trace_recursive key template destination command e2 := by
  induction e1 with
  | nil => rfl
  | cons ev evs ih =>
    rw [List.cons_append]
    simp only [watch_trace_recursive]
    rw [ih, List.append_assoc]

/-- C2: a transient wait fault (wait-protocol expiry or truncated read) in
an iteration of the watch loop is swallowed: that iteration contributes no
render, no command and no other action beyond re-issuing the wait, the
loop continues with the remaining events, and the fault never escapes (the
trace functions are total). This holds in both single and recursive mode. -/
theorem wait_fault_is_noop (key template destination : String)
    (command : List String)
    (evs1 evs2 : List (WaitOutcome String))
    (revs1 revs2 : List (WaitOutcome (List ChildNode))) :
    (loop_iter_single template destination command .fault = []) ∧
    (loop_iter_recursive template destination command .fault = []) ∧
    (watch_trace_single key template destination command (evs1 ++ .fault :: evs2) =
        watch_trace_single key template destination command evs1 ++
          Action.waitKey key ::
            watch_trace_single key template destination command evs2) ∧
    (watch_trace_recursive key template destination command (revs1 ++ .fault :: revs2) =
        watch_trace_recursive key template destination command revs1 ++
          Action.waitKey key ::
            watch_trace_recursive key template destination command revs2) := by
  refine ⟨rfl, rfl, ?_, ?_⟩
  · rw [watch_trace_single_append]
    simp only [watch_trace_single, loop_iter_single, List.cons_append,
      List.nil_append]
  · rw [watch_trace_recursive_append]
    simp only [watch_trace_recursive, loop_iter_recursive, List.cons_append,
      List.nil_append]

theorem countP_watch_trace_single_reads (key template destination : String)
    (command : List String) (evs : List (WaitOutcome String)) :
    (watch_trace_single key template destination command evs).countP
        (fun a => isDirectRead a) = 0 := by
  induction evs with
  | nil => rfl
  | cons ev evs ih =>
    simp only [watch_trace_single, List.countP_append, ih]
    cases ev with
    | fault => rfl
    | changed v => rfl

theorem countP_watch_trace_recursive_reads (key template destination : String)
    (command : List String) (evs : List (WaitOutcome (List ChildNode))) :
    (watch_trace_recursive key template destination command evs).countP
        (fun a => isDirectRead a) = 0 := by
  induction evs with
  | nil => rfl
  | cons ev evs ih =>
    simp only [watch_trace_recursive, List.countP_append, ih]
    cases ev with
    | fault => rfl
    | changed cs => rfl

/-- C8: at startup, before entering the blocking wait loop, the daemon
performs exactly one direct read of the etcd key — a get in single mode, a
recursive children listing in recursive mode — then renders the template
and runs the post-render command once from that snapshot; the loop itself
performs no direct reads, and the startup phase performs no waits. -/
theorem startup_single_direct_read (k template destination : String)
    (command : List String) (value : String) (children : List ChildNode)
    (evs : List (WaitOutcome String)) (revs : List (WaitOutcome (List ChildNode))) :
    (main_single k template destination command value evs =
        Action.directGet (taskKey k) ::
          Action.render template destination (.tasks value) ::
            Action.runCmd command ::
              watch_trace_single (taskKey k) template destination command evs) ∧
    (main_recursive k template destination command children revs =
        Action.directList (taskKey k) ::
          Action.render template destination
              (.services (children.map serviceEntry)) ::
            Action.runCmd command ::
              watch_trace_recursive (taskKey k) template destination command revs) ∧
    ((watch_trace_single (taskKey k) template destination command evs).countP
        (fun a => isDirectRead a) = 0) ∧
    ((watch_trace_recursive (taskKey k) template destination command revs).countP
        (fun a => isDirectRead a) = 0) ∧
    ((startup_single (taskKey k) template destination command value).countP
        (fun a => isWait a) = 0) ∧
    ((startup_recursive (taskKey k) template destination command children).countP
        (fun a => isWait a) = 0) :=
  ⟨rfl, rfl,
   countP_watch_trace_single_reads (taskKey k) template destination command evs,
   countP_watch_trace_recursive_reads (taskKey k) template destination command revs,
   rfl, rfl⟩

end Discover
